import Mathlib

/-!
Shallow embedding of `src/main.py` (the BillEase Streamlit chat assistant).

The script is re-executed top to bottom by the UI framework once per UI
event (an image upload or a chat submission).  One execution ("rerun") is
modelled by `runScript`: it takes the persistent session state
(`st.session_state`), the state of the temp-file area of the filesystem,
and the widget values of that rerun, and returns the updated states
together with an observation record (how many times each remote client was
invoked, what the assistant chat bubbles displayed, which context string
was composed for the agent, and whether `os.unlink` raised).

Remote services are modelled by oracles: an `Except String String` input
per rerun, `.ok t` meaning the remote call returns text `t` and `.error m`
meaning it raises an exception with message `m`.  Temp-file paths are
drawn from `Nat`; `tempfile.NamedTemporaryFile(delete := False)` creates a
fresh path.  Uploaded files are opaque `Nat` identifiers; the file-uploader
widget retains its value across reruns until the user clears it, so a
rerun triggered by a chat submission still sees the previously uploaded
file in `uploaded`.
-/

namespace BillEase

/-- Role of a conversation turn (the "role" key of a message dict). -/
inductive Role where
  | user
  | assistant
deriving DecidableEq, Repr

/-- One message dict of `st.session_state.messages`.  The "image" key is
optional: `none` means the key is absent, `some none` means the key is
present with value `None`, and `some (some f)` means the key holds the
uploaded file `f`.  The render loop (src/main.py lines 81 to 85) guards on
the presence of the key and on its value not being `None`. -/
structure Message where
  role : Role
  content : String
  image : Option (Option Nat)
deriving DecidableEq, Repr

/-- The temp-file area of the filesystem: the existing temp paths, and the
next fresh path a `tempfile.NamedTemporaryFile(delete := False)` call will
create. -/
structure FS where
  files : List Nat
  next : Nat
deriving DecidableEq, Repr

/-- `os.path.exists` on a temp path. -/
def os_path_exists (fs : FS) (p : Nat) : Bool :=
  fs.files.contains p

/-- `os.unlink`: removes the file, or raises `FileNotFoundError` when the
path does not exist (modelled as `Except.error`). -/
def os_unlink (fs : FS) (p : Nat) : Except String FS :=
  if fs.files.contains p then .ok { fs with files := fs.files.erase p }
  else .error "FileNotFoundError"

/-- The sentinel string of src/main.py line 114. -/
def sentinel : String := "Please upload a clearer image"

/-- The display prefix of src/main.py line 117. -/
def analysisPrefix : String := "I've analyzed the uploaded image:\n\n"

/-- The fixed apology of src/main.py line 143, used when `agent is None`. -/
def initApology : String := "Sorry, I'm having trouble initializing. Please try again later."

/-- The per-call error prefix of src/main.py line 168. -/
def errPrefix : String := "Sorry, I encountered an error: "

/-- `analyze_image` (src/main.py lines 16 to 54).  The body constructs the
remote vision tool and calls it; both are inside one `try`, modelled by the
oracle `remote` (`.ok t`: the space returned text `t`; `.error e`: an
exception with message `e` was raised somewhere in the `try` block).  The
`except` clause turns any exception into the returned string
`"Error analyzing image: " ++ e`, so the function always returns a plain
string and never propagates an exception to its caller. -/
def analyze_image (remote : Except String String) : String :=
  match remote with
  | .ok r => r
  | .error e => "Error analyzing image: " ++ e

/-- The context composed at src/main.py lines 148 and 151 when an image
path is live in the rerun. -/
def imageContext (analysis prompt : String) : String :=
  "The user has uploaded an image. Image analysis: " ++ analysis ++
    ". User query: " ++ prompt

/-- The f-string template of src/main.py lines 156 to 165 that wraps the
context into the full prompt passed to `agent.run`. -/
def personaTemplate (context : String) : String :=
  "\n                        You are a helpful assistant who answers queries about Billease, a fintech company in the Philippines.\n                        \n                        Context information:\n                        - BillEase is a buy now, pay later app in the Philippines\n                        - Users can shop online, pay bills, and get cash loans\n                        - More info at: https://billease.ph/faq/\n                        \n                        User query: " ++
    context ++ "\n                        "

/-- `st.session_state` together with the cached outcome of `create_agent`
(src/main.py lines 70 to 79; `@st.cache_resource` makes the construction
outcome session-wide): `agentOk = true` means `agent` is the constructed
client, `agentOk = false` means construction raised and `agent is None`.
`image_analyzed` is the `st.session_state.image_analyzed` key, `none`
while the key is absent. -/
structure SessionState where
  messages : List Message
  image_analyzed : Option Bool
  agentOk : Bool
deriving DecidableEq, Repr

/-- The widget values and remote-call oracles of one rerun.  `uploaded` is
the value of `st.file_uploader` (the widget retains the uploaded file
across reruns until the user clears it); `prompt` is the value of
`st.chat_input` (`some q` only on the rerun triggered by submitting `q`).
`visionRemote` and `agentRemote` are the outcomes the remote vision space
and `agent.run` would produce if called during this rerun. -/
structure RerunInput where
  uploaded : Option Nat
  prompt : Option String
  visionRemote : Except String String
  agentRemote : Except String String
deriving Repr

/-- What one rerun produced: the new session state and filesystem, and the
observations used by the theorems below. -/
structure RerunOutput where
  state : SessionState
  fs : FS
  analyzeCalls : Nat
  agentCalls : Nat
  displayed : List String
  contextUsed : Option String
  imagePathFinal : Option Nat
  unlinkRaised : Bool
deriving Repr

/-- Result of the upload-and-analyze block (src/main.py lines 95 to 125):
messages, filesystem, the locals `image_path` and `image_analysis`, the
session `image_analyzed` key, the number of `analyze_image` calls, and the
strings shown in assistant chat bubbles. -/
structure UploadStep where
  messages : List Message
  fs : FS
  image_path : Option Nat
  image_analysis : Option String
  image_analyzed_sess : Option Bool
  analyzeCalls : Nat
  displayed : List String

/-- Lines 95 to 125 of src/main.py.  Note the guard at line 99 reads the
LOCAL `image_analyzed`, which line 97 has just set to `false`; the stored
`st.session_state.image_analyzed` flag is only copied back into the local
at line 181, after this block already ran.  Line 106 then requires the
agent to exist before analyzing. -/
def uploadBlock (s : SessionState) (fs : FS) (inp : RerunInput) : UploadStep :=
  let image_analyzed : Bool := false
  match inp.uploaded with
  | none =>
      { messages := s.messages, fs := fs, image_path := none,
        image_analysis := none, image_analyzed_sess := s.image_analyzed,
        analyzeCalls := 0, displayed := [] }
  | some f =>
      if image_analyzed then
        { messages := s.messages, fs := fs, image_path := none,
          image_analysis := none, image_analyzed_sess := s.image_analyzed,
          analyzeCalls := 0, displayed := [] }
      else
        let path := fs.next
        let fs1 : FS := { files := path :: fs.files, next := fs.next + 1 }
        if s.agentOk then
          let msgs1 := s.messages ++
            [{ role := Role.user, content := "Image uploaded", image := some (some f) }]
          let ia := analyze_image inp.visionRemote
          let shown := if ia = sentinel then ia else analysisPrefix ++ ia
          let msgs2 := msgs1 ++
            [{ role := Role.assistant, content := ia, image := some none }]
          { messages := msgs2, fs := fs1, image_path := some path,
            image_analysis := some ia, image_analyzed_sess := some true,
            analyzeCalls := 1, displayed := [shown] }
        else
          { messages := s.messages, fs := fs1, image_path := some path,
            image_analysis := none, image_analyzed_sess := s.image_analyzed,
            analyzeCalls := 0, displayed := [] }

/-- Result of the response computation (src/main.py lines 142 to 168). -/
structure TextStep where
  response : String
  agentCalls : Nat
  analyzeCalls : Nat
  context : Option String

/-- Lines 142 to 168 of src/main.py: the apology short-circuit when
`agent is None`, otherwise context composition and the `agent.run` call
whose raised exception the `except` clause turns into the error-prefixed
response. -/
def textStep (agentOk : Bool) (image_path : Option Nat)
    (image_analysis : Option String) (prompt : String)
    (visionRemote agentRemote : Except String String) : TextStep :=
  if agentOk then
    match image_path with
    | some _ =>
        match image_analysis with
        | some ia =>
            let context := imageContext ia prompt
            match agentRemote with
            | .ok r => { response := r, agentCalls := 1, analyzeCalls := 0,
                         context := some context }
            | .error m => { response := errPrefix ++ m, agentCalls := 1,
                            analyzeCalls := 0, context := some context }
        | none =>
            let ia := analyze_image visionRemote
            let context := imageContext ia prompt
            match agentRemote with
            | .ok r => { response := r, agentCalls := 1, analyzeCalls := 1,
                         context := some context }
            | .error m => { response := errPrefix ++ m, agentCalls := 1,
                            analyzeCalls := 1, context := some context }
    | none =>
        let context := prompt
        match agentRemote with
        | .ok r => { response := r, agentCalls := 1, analyzeCalls := 0,
                     context := some context }
        | .error m => { response := errPrefix ++ m, agentCalls := 1,
                        analyzeCalls := 0, context := some context }
  else
    { response := initApology, agentCalls := 0, analyzeCalls := 0, context := none }

/-- Lines 178 to 181 of src/main.py: initialise the session key
`image_analyzed` to `false` when absent (when present, only the dead local
is assigned). -/
def sessInit (v : Option Bool) : Option Bool :=
  match v with
  | none => some false
  | some b => some b

/-- One full rerun of src/main.py (lines 95 to 181) given the cached
construction outcome and session state `s`, filesystem `fs` and widget
values `inp`. -/
def runScript (s : SessionState) (fs : FS) (inp : RerunInput) : RerunOutput :=
  let up := uploadBlock s fs inp
  match inp.prompt with
  | none =>
      { state := { messages := up.messages,
                   image_analyzed := sessInit up.image_analyzed_sess,
                   agentOk := s.agentOk },
        fs := up.fs, analyzeCalls := up.analyzeCalls, agentCalls := 0,
        displayed := up.displayed, contextUsed := none,
        imagePathFinal := up.image_path, unlinkRaised := false }
  | some prompt =>
      let user_message : Message :=
        { role := Role.user, content := prompt,
          image := match inp.uploaded with
                   | none => none
                   | some f => some (some f) }
      let msgs2 := up.messages ++ [user_message]
      let step := textStep s.agentOk up.image_path up.image_analysis prompt
        inp.visionRemote inp.agentRemote
      let unlinkStep : FS × Option Nat × Bool :=
        match up.image_path with
        | some p =>
            if os_path_exists up.fs p then
              match os_unlink up.fs p with
              | .ok fs2 => (fs2, none, false)
              | .error _ => (up.fs, some p, true)
            else (up.fs, some p, false)
        | none => (up.fs, none, false)
      let msgs3 := msgs2 ++
        [{ role := Role.assistant, content := step.response, image := some none }]
      { state := { messages := msgs3,
                   image_analyzed := sessInit up.image_analyzed_sess,
                   agentOk := s.agentOk },
        fs := unlinkStep.1, analyzeCalls := up.analyzeCalls + step.analyzeCalls,
        agentCalls := step.agentCalls,
        displayed := up.displayed ++ [step.response],
        contextUsed := step.context,
        imagePathFinal := unlinkStep.2.1, unlinkRaised := unlinkStep.2.2 }

/-- Fresh session: `st.session_state.messages` initialised to `[]` at
src/main.py lines 13 to 14, `image_analyzed` key absent, construction
outcome `agentOk`. -/
def initialState (agentOk : Bool) : SessionState :=
  { messages := [], image_analyzed := none, agentOk := agentOk }

/-- Fresh temp-file area. -/
def initialFS : FS := { files := [], next := 0 }

/-- The rerun triggered by uploading image `0` into the file uploader: the
chat input returns nothing on this rerun, and the vision space describes
the image. -/
def upEvent : RerunInput :=
  { uploaded := some 0, prompt := none,
    visionRemote := .ok "- red car\n- license plate ABC123",
    agentRemote := .ok "agent reply" }

/-- The next rerun, triggered by submitting a first chat question; the
uploader widget still holds file `0` (the user did not clear it). -/
def textEvent1 : RerunInput :=
  { uploaded := some 0, prompt := some "What is shown on the bill?",
    visionRemote := .ok "- red car\n- license plate ABC123",
    agentRemote := .ok "first reply" }

/-- A later rerun, triggered by submitting a second, unrelated chat
question; still no new upload, the uploader still holds file `0`. -/
def textEvent2 : RerunInput :=
  { uploaded := some 0, prompt := some "How do I pay with BillEase?",
    visionRemote := .ok "- red car\n- license plate ABC123",
    agentRemote := .ok "second reply" }

/-- State after the upload event in a fresh session with a constructed
agent. -/
def run1 : RerunOutput := runScript (initialState true) initialFS upEvent

/-- State after the first text submission. -/
def run2 : RerunOutput := runScript run1.state run1.fs textEvent1

/-- State after the second text submission. -/
def run3 : RerunOutput := runScript run2.state run2.fs textEvent2

/-- C1 (counterexample).  On the upload of image 0 with non-sentinel
analysis text "- red car\n- license plate ABC123", the chat bubble
displays the prefixed string, but the assistant turn appended to
`st.session_state.messages` (src/main.py line 119) stores the raw
analysis text, which differs from the displayed prefixed string: the
claim that the appended turn equals the prefixed string is false. -/
theorem upload_assistant_turn_prefix_cex :
    run1.displayed = [analysisPrefix ++ "- red car\n- license plate ABC123"] ∧
    run1.state.messages.getLast? =
      some { role := Role.assistant, content := "- red car\n- license plate ABC123",
             image := some none } ∧
    ("- red car\n- license plate ABC123" : String) ≠
      analysisPrefix ++ "- red car\n- license plate ABC123" := by
  refine ⟨rfl, rfl, ?_⟩
  decide

/-- C1 (as amended).  For an upload rerun (file in the uploader, no chat
submission) with a constructed agent, the appended assistant turn stores
the raw analysis text `T`, while the transient chat bubble displays the
sentinel verbatim or the prefixed string `analysisPrefix ++ T`. -/
theorem upload_assistant_turn_stores_raw_analysis
    (s : SessionState) (fs : FS) (inp : RerunInput) (f : Nat)
    (hU : inp.uploaded = some f) (hP : inp.prompt = none)
    (hA : s.agentOk = true) :
    (runScript s fs inp).state.messages =
      s.messages ++
        [{ role := Role.user, content := "Image uploaded", image := some (some f) },
         { role := Role.assistant, content := analyze_image inp.visionRemote,
           image := some none }] ∧
    (runScript s fs inp).displayed =
      [if analyze_image inp.visionRemote = sentinel then
        analyze_image inp.visionRemote
       else analysisPrefix ++ analyze_image inp.visionRemote] := by
  simp [runScript, uploadBlock, hU, hP, hA]

/-- C1 (witness): the amended statement evaluated on the concrete upload
event `upEvent` in a fresh session. -/
theorem upload_assistant_turn_stores_raw_analysis_witness :
    upEvent.uploaded = some 0 ∧ upEvent.prompt = none ∧
    (initialState true).agentOk = true ∧
    ((runScript (initialState true) initialFS upEvent).state.messages =
      (initialState true).messages ++
        [{ role := Role.user, content := "Image uploaded", image := some (some 0) },
         { role := Role.assistant, content := analyze_image upEvent.visionRemote,
           image := some none }] ∧
     (runScript (initialState true) initialFS upEvent).displayed =
      [if analyze_image upEvent.visionRemote = sentinel then
        analyze_image upEvent.visionRemote
       else analysisPrefix ++ analyze_image upEvent.visionRemote]) :=
  ⟨rfl, rfl, rfl,
    upload_assistant_turn_stores_raw_analysis (initialState true) initialFS upEvent 0
      rfl rfl rfl⟩

/-- C2 (failing-input evaluation).  After the upload event the session
flag `st.session_state.image_analyzed` is `true`, yet the very next rerun
(the first chat submission, no new upload: the uploader still holds file
0) invokes `analyze_image` again and appends a second "Image uploaded"
user turn, because the guard at src/main.py line 99 reads the local
`image_analyzed` that line 97 just reset and the session flag is copied
back only at line 181, after the guard already ran. -/
theorem rerun_reanalyzes_uploaded_image :
    run1.analyzeCalls = 1 ∧
    run1.state.image_analyzed = some true ∧
    run2.analyzeCalls = 1 ∧
    (run2.state.messages.countP fun m => m.content == "Image uploaded") = 2 := by
  refine ⟨rfl, rfl, rfl, ?_⟩
  decide

/-- C3 (failing-input evaluation).  The upload event creates temp file 0
and analyzes it, but when no chat submission follows in the same rerun the
file is never unlinked (the only `os.unlink` sits in the chat-submission
block, src/main.py lines 170 to 172); it is still present even after two
later chat submissions, which unlink only their own fresh temp copies. -/
theorem upload_without_text_leaks_temp_file :
    run1.analyzeCalls = 1 ∧
    run1.fs.files = [0] ∧
    run3.fs.files = [0] := by
  exact ⟨rfl, rfl, rfl⟩

/-- C4 (failing-input evaluation).  The first chat submission composes its
agent context with the analysis text included once; but the second, later
submission with no new upload composes its context with the analysis text
again (the upload block re-ran and re-derived `image_analysis`), instead
of the bare user query. -/
theorem second_submission_reincludes_analysis :
    run2.contextUsed =
      some (imageContext "- red car\n- license plate ABC123"
        "What is shown on the bill?") ∧
    run3.contextUsed =
      some (imageContext "- red car\n- license plate ABC123"
        "How do I pay with BillEase?") ∧
    run3.contextUsed ≠ some "How do I pay with BillEase?" := by
  refine ⟨rfl, rfl, ?_⟩
  decide

/-- C5.  For an upload rerun with a constructed agent whose analysis
returns the sentinel, the appended assistant turn's content is the
sentinel exactly, with no prefix or suffix. -/
theorem sentinel_assistant_turn_exact
    (s : SessionState) (fs : FS) (inp : RerunInput) (f : Nat)
    (hU : inp.uploaded = some f) (hP : inp.prompt = none)
    (hA : s.agentOk = true)
    (hS : analyze_image inp.visionRemote = sentinel) :
    (runScript s fs inp).state.messages =
      s.messages ++
        [{ role := Role.user, content := "Image uploaded", image := some (some f) },
         { role := Role.assistant, content := sentinel, image := some none }] := by
  simp [runScript, uploadBlock, hU, hP, hA, hS]

/-- The upload rerun of a blurry image: the vision space returns the
sentinel. -/
def blurryUpEvent : RerunInput :=
  { uploaded := some 0, prompt := none,
    visionRemote := .ok sentinel, agentRemote := .ok "agent reply" }

/-- C5 (witness): the sentinel statement evaluated on the concrete blurry
upload event in a fresh session. -/
theorem sentinel_assistant_turn_exact_witness :
    blurryUpEvent.uploaded = some 0 ∧ blurryUpEvent.prompt = none ∧
    (initialState true).agentOk = true ∧
    analyze_image blurryUpEvent.visionRemote = sentinel ∧
    (runScript (initialState true) initialFS blurryUpEvent).state.messages =
      (initialState true).messages ++
        [{ role := Role.user, content := "Image uploaded", image := some (some 0) },
         { role := Role.assistant, content := sentinel, image := some none }] :=
  ⟨rfl, rfl, rfl, rfl,
    sentinel_assistant_turn_exact (initialState true) initialFS blurryUpEvent 0
      rfl rfl rfl rfl⟩

/-- C6.  `analyze_image` is a total function of its oracle: a transport or
service failure with message `e` yields the returned string
`"Error analyzing image: " ++ e` (never a propagated exception), and a
successful call returns the remote text unchanged. -/
theorem analyze_image_total_error_prefix (e t : String) :
    analyze_image (Except.error e) = "Error analyzing image: " ++ e ∧
    analyze_image (Except.ok t) = t :=
  ⟨rfl, rfl⟩

/-- The last element of a list with one element appended. -/
theorem getLast_append_singleton {α : Type} (l : List α) (a : α) :
    (l ++ [a]).getLast? = some a := by
  simp [List.getLast?_concat]

/-- C7.  When agent construction failed (`agent is None` for the whole
session), every chat submission short-circuits to the fixed apology turn
with no call to the text agent (and none to the vision tool either), and
the construction outcome stays failed for the session. -/
theorem agent_construction_failure_apology
    (s : SessionState) (fs : FS) (inp : RerunInput) (q : String)
    (hA : s.agentOk = false) (hP : inp.prompt = some q) :
    (runScript s fs inp).state.messages.getLast? =
      some { role := Role.assistant, content := initApology, image := some none } ∧
    (runScript s fs inp).agentCalls = 0 ∧
    (runScript s fs inp).analyzeCalls = 0 ∧
    (runScript s fs inp).state.agentOk = false := by
  cases hU : inp.uploaded <;>
    simp [runScript, uploadBlock, textStep, hA, hP, hU, getLast_append_singleton]

/-- A chat submission in a session whose agent construction failed. -/
def noAgentTextEvent : RerunInput :=
  { uploaded := none, prompt := some "What is BillEase?",
    visionRemote := .ok "- a bill", agentRemote := .ok "reply" }

/-- C7 (witness): the apology statement evaluated on a concrete chat
submission in a fresh session with failed agent construction. -/
theorem agent_construction_failure_apology_witness :
    (initialState false).agentOk = false ∧
    noAgentTextEvent.prompt = some "What is BillEase?" ∧
    ((runScript (initialState false) initialFS noAgentTextEvent).state.messages.getLast? =
      some { role := Role.assistant, content := initApology, image := some none } ∧
     (runScript (initialState false) initialFS noAgentTextEvent).agentCalls = 0 ∧
     (runScript (initialState false) initialFS noAgentTextEvent).analyzeCalls = 0 ∧
     (runScript (initialState false) initialFS noAgentTextEvent).state.agentOk = false) :=
  ⟨rfl, rfl,
    agent_construction_failure_apology (initialState false) initialFS noAgentTextEvent
      "What is BillEase?" rfl rfl⟩

/-- C8.  When the per-call text-agent invocation raises with message `m`,
the appended assistant turn is the ordinary turn
`"Sorry, I encountered an error: " ++ m` (one attempted call), whatever
the upload situation of the rerun; the rerun completes normally. -/
theorem agent_call_error_turn
    (s : SessionState) (fs : FS) (inp : RerunInput) (q m : String)
    (hA : s.agentOk = true) (hP : inp.prompt = some q)
    (hE : inp.agentRemote = .error m) :
    (runScript s fs inp).state.messages.getLast? =
      some { role := Role.assistant, content := errPrefix ++ m, image := some none } ∧
    (runScript s fs inp).agentCalls = 1 := by
  cases hU : inp.uploaded <;>
    simp [runScript, uploadBlock, textStep, hA, hP, hU, hE, getLast_append_singleton]

/-- A chat submission whose agent call raises a transport error with
message "timeout". -/
def agentErrorEvent : RerunInput :=
  { uploaded := none, prompt := some "What is BillEase?",
    visionRemote := .ok "- a bill", agentRemote := .error "timeout" }

/-- C8 (witness): the error-turn statement evaluated on a concrete
submission whose agent call raises "timeout". -/
theorem agent_call_error_turn_witness :
    (initialState true).agentOk = true ∧
    agentErrorEvent.prompt = some "What is BillEase?" ∧
    agentErrorEvent.agentRemote = .error "timeout" ∧
    ((runScript (initialState true) initialFS agentErrorEvent).state.messages.getLast? =
      some { role := Role.assistant, content := errPrefix ++ "timeout",
             image := some none } ∧
     (runScript (initialState true) initialFS agentErrorEvent).agentCalls = 1) :=
  ⟨rfl, rfl, rfl,
    agent_call_error_turn (initialState true) initialFS agentErrorEvent
      "What is BillEase?" "timeout" rfl rfl rfl⟩

/-- The per-message invariant of C9: an assistant turn always carries the
"image" key with value `None`; a user turn never carries the key with
value `None` (it either has no "image" key or holds an uploaded file). -/
def msgInv (m : Message) : Prop :=
  (m.role = Role.assistant → m.image = some none) ∧
  (m.role = Role.user → m.image ≠ some none)

/-- C9.  Every rerun preserves the image-field invariant of the message
store, and on a rerun with nothing in the uploader every user turn it
appends has no "image" key at all. -/
theorem message_image_field_invariant
    (s : SessionState) (fs : FS) (inp : RerunInput)
    (hInv : ∀ m ∈ s.messages, msgInv m) :
    (∀ m ∈ (runScript s fs inp).state.messages, msgInv m) ∧
    (inp.uploaded = none →
      ∀ m ∈ (runScript s fs inp).state.messages.drop s.messages.length,
        m.role = Role.user → m.image = none) := by
  obtain ⟨u, p, v, a⟩ := inp
  constructor
  · cases u <;> cases p <;> cases hA : s.agentOk <;>
      simp_all [runScript, uploadBlock, textStep, msgInv, List.forall_mem_append,
        or_imp, forall_and, forall_eq]
  · intro hU
    simp only at hU
    subst hU
    cases p <;> cases hA : s.agentOk <;>
      simp [runScript, uploadBlock, textStep, hA, List.drop_left, List.drop_length]

/-- A plain chat submission with nothing in the uploader. -/
def plainTextEvent : RerunInput :=
  { uploaded := none, prompt := some "Hello",
    visionRemote := .ok "- a bill", agentRemote := .ok "hi" }

/-- C9 (witness): the invariant statement evaluated on a concrete plain
chat submission in a fresh session. -/
theorem message_image_field_invariant_witness :
    (∀ m ∈ (initialState true).messages, msgInv m) ∧
    ((∀ m ∈ (runScript (initialState true) initialFS plainTextEvent).state.messages,
        msgInv m) ∧
     (plainTextEvent.uploaded = none →
       ∀ m ∈ (runScript (initialState true) initialFS
           plainTextEvent).state.messages.drop (initialState true).messages.length,
         m.role = Role.user → m.image = none)) :=
  ⟨by simp [initialState],
    message_image_field_invariant (initialState true) initialFS plainTextEvent
      (by simp [initialState])⟩

/-- C10.  On a rerun with an upload in the widget and a chat submission,
the temp file created for the upload is gone at the end of the rerun and
the local `image_path` ends reset to `None`, whatever the construction
outcome `s.agentOk` and whatever the agent call does (the unlink sits
after the `except`, outside the `try`); the existence guard means
`os.unlink` never raises. -/
theorem text_path_unlink_always_runs
    (s : SessionState) (fs : FS) (inp : RerunInput) (f : Nat) (q : String)
    (hU : inp.uploaded = some f) (hP : inp.prompt = some q)
    (hFresh : fs.next ∉ fs.files) :
    fs.next ∉ (runScript s fs inp).fs.files ∧
    (runScript s fs inp).unlinkRaised = false ∧
    (runScript s fs inp).imagePathFinal = none := by
  cases hA : s.agentOk <;>
    simp [runScript, uploadBlock, textStep, hU, hP, hA, os_path_exists, os_unlink,
      List.erase_cons_head, hFresh]

/-- C10 (witness): the unlink statement evaluated on a concrete rerun
that has file 0 in the uploader and a chat submission, in a session whose
agent construction failed (the deletion still runs). -/
theorem text_path_unlink_always_runs_witness :
    textEvent1.uploaded = some 0 ∧
    textEvent1.prompt = some "What is shown on the bill?" ∧
    initialFS.next ∉ initialFS.files ∧
    (initialFS.next ∉ (runScript (initialState false) initialFS textEvent1).fs.files ∧
     (runScript (initialState false) initialFS textEvent1).unlinkRaised = false ∧
     (runScript (initialState false) initialFS textEvent1).imagePathFinal = none) :=
  ⟨rfl, rfl, by decide,
    text_path_unlink_always_runs (initialState false) initialFS textEvent1 0
      "What is shown on the bill?" rfl rfl (by decide)⟩

end BillEase
